import Mathlib

/-!
Verification development for the `aws-internet-observer` service.

The repository contains two near-duplicate Flask services (`app.py` and
`aws-internet-observer.py`) that track the reachability of a single network
address.  We embed their core logic shallowly:

* the SQLite database is a pair of explicit relations, `ip_current`
  (a list of `IpRow`) and `checks` (a list of `CheckRow`);
* the network is an oracle `NetEnv` whose fields return `Except String _`:
  `Except.error e` models a Python exception whose `str(e)` is `e`;
* `do_check` is split into `do_check_ops`, the exact trace of SQL
  insert/commit operations the Python function issues on its connection,
  and the state transformer obtained by replaying that trace (uncommitted
  inserts sit in the connection's `pending` buffer and are dropped on
  close, matching SQLite transaction semantics);
* Python string slicing `s[:n]` is `pytrunc`, `int(b)` is `pyInt`, and the
  truthiness-based `a or b` on an optional string is `pyOrStr`;
* JSON responses are values of the inductive `JVal`, built with the fields
  in the order the handlers build their dicts.

`app.py` is embedded in namespace `App` and `aws-internet-observer.py` in
namespace `Obs`; where their code is line-for-line identical the two
namespaces contain textually identical definitions so that their
equivalence can be stated and proved rather than assumed.
-/

/-- One row of the `ip_current` table (`id INTEGER PRIMARY KEY, ip TEXT,
updated_at TIMESTAMP`); timestamps are modelled as naturals. -/
structure IpRow where
  id : Nat
  ip : String
  updated_at : Nat
deriving DecidableEq, Repr

/-- One row of the `checks` table, without the auto-assigned `id` column:
`ip TEXT, time TIMESTAMP, reachable INTEGER, method TEXT, detail TEXT`.
`reachable` stores Python's `int(ok)`. -/
structure CheckRow where
  ip : String
  time : Nat
  reachable : Nat
  method : String
  detail : String
deriving DecidableEq, Repr

/-- The persistent database state: the two tables created by `init_db`. -/
structure DBState where
  ip_current : List IpRow
  checks : List CheckRow
deriving DecidableEq, Repr

/-- One SQL operation issued by `do_check` on its private connection. -/
inductive DbOp where
  | insertCheck : CheckRow → DbOp
  | commit : DbOp
deriving DecidableEq, Repr

/-- A SQLite connection over the `checks` table: committed rows plus the
pending (uncommitted) inserts of the open transaction. -/
structure Conn where
  committed : List CheckRow
  pending : List CheckRow
deriving DecidableEq, Repr

/-- Replay one SQL operation: an insert joins the open transaction, a
commit appends the whole transaction to the durable table at once. -/
def stepOp (c : Conn) : DbOp → Conn
  | .insertCheck r => { c with pending := c.pending ++ [r] }
  | .commit => { committed := c.committed ++ c.pending, pending := [] }

/-- The network oracle.  Each field models one fallible library call:
`ping` is `subprocess.run(["ping", ...])` returning the return code and
decoded stdout, `connect` is `socket.connect` (plus `close`), `httpGet` is
`requests.get(url, timeout)` returning the surfaced status code.
`Except.error e` models a raised exception with `str(e) = e`. -/
structure NetEnv where
  ping : String → Nat → Except String (Int × String)
  connect : String → Nat → Nat → Except String Unit
  httpGet : String → Nat → Except String Nat

/-- Python string slicing `s[:n]`: the first `n` characters. -/
def pytrunc (s : String) (n : Nat) : String := String.mk (s.data.take n)

/-- Python `int(b)` for a boolean. -/
def pyInt (b : Bool) : Nat := if b then 1 else 0

/-- Python `a or b` where `a` is an optional string and `b` a string:
falls through to `b` when `a` is `None` or empty (falsy). -/
def pyOrStr (a : Option String) (b : String) : String :=
  match a with
  | some s => if s.isEmpty then b else s
  | none => b

/-- `INSERT OR REPLACE INTO ip_current (id, ip, updated_at) VALUES (1, ?, ?)`:
SQLite deletes any row conflicting on the primary key `1`, then inserts. -/
def insertOrReplace (rows : List IpRow) (ip : String) (t : Nat) : List IpRow :=
  rows.filter (fun r => r.id != 1) ++ [⟨1, ip, t⟩]

/-- Response of the update-IP endpoint: 200 with the stored ip, or the
400 "no ip provided" error (the authorized cases; auth happens before). -/
inductive UpdateResp where
  | ok : String → UpdateResp
  | badRequest : UpdateResp
deriving DecidableEq, Repr

/-- The `ORDER BY time DESC` relation on check rows. -/
def timeGe (a b : CheckRow) : Prop := b.time ≤ a.time

instance : DecidableRel timeGe := fun a b => Nat.decLe _ _

instance : IsTotal CheckRow timeGe := ⟨fun a b => Nat.le_total b.time a.time⟩

instance : IsTrans CheckRow timeGe :=
  ⟨fun _ _ _ hab hbc => Nat.le_trans hbc hab⟩

/-- The rows of `checks` sorted by `time` descending, as produced by
`SELECT ... ORDER BY time DESC`. -/
def sortDesc (l : List CheckRow) : List CheckRow := List.insertionSort timeGe l

/-- `SELECT ... FROM checks ORDER BY time DESC LIMIT n`: the History
Store's `latest(n)` query (the source uses `n = 1` for status and
`n = 200` for history). -/
def latest (checks : List CheckRow) (n : Nat) : List CheckRow :=
  (sortDesc checks).take n

/-- The spec's History Store operation `mostRecentAny() -> ProbeRecord | null`,
written from the spec's words: the single most recent probe record
regardless of method, or null when the history is empty. -/
def mostRecentAny (checks : List CheckRow) : Option CheckRow :=
  (sortDesc checks).head?

/-- JSON values, for comparing response contents of the two services. -/
inductive JVal where
  | jnull : JVal
  | jbool : Bool → JVal
  | jnum : Nat → JVal
  | jstr : String → JVal
  | jobj : List (String × JVal) → JVal
  | jarr : List JVal → JVal
deriving Repr

/-- `dict(last)` for the status queries' `SELECT time, reachable, method,
detail` row. -/
def statusLastJ (c : CheckRow) : JVal :=
  .jobj [("time", .jnum c.time), ("reachable", .jnum c.reachable),
         ("method", .jstr c.method), ("detail", .jstr c.detail)]

/-- `dict(last) if last else None`. -/
def jOptLast (o : Option CheckRow) : JVal :=
  match o with
  | none => .jnull
  | some c => statusLastJ c

/-- `dict(r)` for one history row: `SELECT time, ip, reachable, method,
detail`. -/
def histRowJ (c : CheckRow) : JVal :=
  .jobj [("time", .jnum c.time), ("ip", .jstr c.ip),
         ("reachable", .jnum c.reachable), ("method", .jstr c.method),
         ("detail", .jstr c.detail)]

namespace App

/-- `ping_icmp` from `app.py`: run the system ping, reachable iff return
code 0, detail is the decoded stdout truncated to 2000 characters; any
exception becomes `(False, str(e))`. -/
def ping_icmp (env : NetEnv) (ip : String) (timeout : Nat := 2) :
    Bool × String :=
  match env.ping ip timeout with
  | .ok res => (res.1 == 0, pytrunc res.2 2000)
  | .error e => (false, e)

/-- `tcp_connect` from `app.py`: bare TCP handshake to the port; success
yields `(True, "tcp:<port> ok")`, any exception `(False, str(e))`. -/
def tcp_connect (env : NetEnv) (ip : String) (port : Nat := 80)
    (timeout : Nat := 3) : Bool × String :=
  match env.connect ip port timeout with
  | .ok _ => (true, "tcp:" ++ toString port ++ " ok")
  | .error e => (false, e)

/-- `http_get` from `app.py`: GET `http://<ip><path>`, reachable iff the
surfaced status code is exactly 200, detail `"status:<code>"`; any
exception becomes `(False, str(e))`. -/
def http_get (env : NetEnv) (ip : String) (path : String)
    (timeout : Nat := 5) : Bool × String :=
  match env.httpGet ("http://" ++ ip ++ path) timeout with
  | .ok code => (code == 200, "status:" ++ toString code)
  | .error e => (false, e)

/-- The trace of SQL operations `do_check` issues: read the tracked row
(id 1); if none, nothing; otherwise capture one timestamp `now`, run the
four probes and insert one row per probe, then commit once.  `cfg` is the
configured `HTTP_CHECK_PATH`. -/
def do_check_ops (cfg : String) (env : NetEnv) (st : DBState) (now : Nat) :
    List DbOp :=
  match st.ip_current.find? (fun r => r.id == 1) with
  | none => []
  | some row =>
    let ip := row.ip
    let ts := now
    let r1 := ping_icmp env ip 2
    let icmpOps := [DbOp.insertCheck
      ⟨ip, ts, pyInt r1.1, "icmp", pytrunc r1.2 2000⟩]
    let tcpOps := ([80, 443] : List Nat).map (fun port =>
      let r2 := tcp_connect env ip port 3
      DbOp.insertCheck
        ⟨ip, ts, pyInt r2.1, "tcp:" ++ toString port, pytrunc r2.2 2000⟩)
    let r3 := http_get env ip cfg 5
    let httpOps := [DbOp.insertCheck
      ⟨ip, ts, pyInt r3.1, "http", pytrunc r3.2 2000⟩]
    icmpOps ++ tcpOps ++ httpOps ++ [DbOp.commit]

/-- The database effect of one `do_check` invocation: replay its SQL trace
on a fresh connection; closing the connection drops any uncommitted rows. -/
def do_check (cfg : String) (env : NetEnv) (st : DBState) (now : Nat) :
    DBState :=
  { st with checks :=
      ((do_check_ops cfg env st now).foldl stepOp ⟨st.checks, []⟩).committed }

/-- The `/ip/status` handler of `app.py`: it always runs the latest-check
query; with no tracked row it answers `{"status": "no-ip", "last_check": ...}`,
otherwise the current address, its update time and the freshest record. -/
def status (st : DBState) : JVal :=
  let row := st.ip_current.find? (fun r => r.id == 1)
  let last := (latest st.checks 1).head?
  match row with
  | none => .jobj [("status", .jstr "no-ip"), ("last_check", jOptLast last)]
  | some r => .jobj [("current_ip", .jstr r.ip),
                     ("ip_updated_at", .jnum r.updated_at),
                     ("last_check", jOptLast last)]

/-- The `/ip/history` handler of `app.py`: the 200 most recent rows, most
recent first. -/
def history (st : DBState) : JVal :=
  .jarr ((latest st.checks 200).map histRowJ)

/-- The authorized body of the `/ip/update` handler of `app.py`:
`jsonIp` is `data.get("ip")` (`none` when the body has no parseable JSON
or no `"ip"` field), `remote` is `request.remote_addr` (`""` for absent).
The chosen ip falls back to the remote address by Python truthiness; an
empty result is the 400 error, otherwise the singleton row is overwritten. -/
def update_ip (jsonIp : Option String) (remote : String) (now : Nat)
    (st : DBState) : UpdateResp × DBState :=
  let ip := pyOrStr jsonIp remote
  if ip.isEmpty then (.badRequest, st)
  else (.ok ip, { st with ip_current := insertOrReplace st.ip_current ip now })

end App

namespace Obs

/-- `ping_icmp` from `aws-internet-observer.py` (same code as `app.py`). -/
def ping_icmp (env : NetEnv) (ip : String) (timeout : Nat := 2) :
    Bool × String :=
  match env.ping ip timeout with
  | .ok res => (res.1 == 0, pytrunc res.2 2000)
  | .error e => (false, e)

/-- `tcp_connect` from `aws-internet-observer.py` (same code as `app.py`). -/
def tcp_connect (env : NetEnv) (ip : String) (port : Nat := 80)
    (timeout : Nat := 3) : Bool × String :=
  match env.connect ip port timeout with
  | .ok _ => (true, "tcp:" ++ toString port ++ " ok")
  | .error e => (false, e)

/-- `http_get` from `aws-internet-observer.py` (same code as `app.py`). -/
def http_get (env : NetEnv) (ip : String) (path : String)
    (timeout : Nat := 5) : Bool × String :=
  match env.httpGet ("http://" ++ ip ++ path) timeout with
  | .ok code => (code == 200, "status:" ++ toString code)
  | .error e => (false, e)

/-- The SQL trace of `do_check` from `aws-internet-observer.py` (same code
as `app.py` except the filesystem-only `ensure_db_dir`). -/
def do_check_ops (cfg : String) (env : NetEnv) (st : DBState) (now : Nat) :
    List DbOp :=
  match st.ip_current.find? (fun r => r.id == 1) with
  | none => []
  | some row =>
    let ip := row.ip
    let ts := now
    let r1 := ping_icmp env ip 2
    let icmpOps := [DbOp.insertCheck
      ⟨ip, ts, pyInt r1.1, "icmp", pytrunc r1.2 2000⟩]
    let tcpOps := ([80, 443] : List Nat).map (fun port =>
      let r2 := tcp_connect env ip port 3
      DbOp.insertCheck
        ⟨ip, ts, pyInt r2.1, "tcp:" ++ toString port, pytrunc r2.2 2000⟩)
    let r3 := http_get env ip cfg 5
    let httpOps := [DbOp.insertCheck
      ⟨ip, ts, pyInt r3.1, "http", pytrunc r3.2 2000⟩]
    icmpOps ++ tcpOps ++ httpOps ++ [DbOp.commit]

/-- The database effect of `do_check` from `aws-internet-observer.py`. -/
def do_check (cfg : String) (env : NetEnv) (st : DBState) (now : Nat) :
    DBState :=
  { st with checks :=
      ((do_check_ops cfg env st now).foldl stepOp ⟨st.checks, []⟩).committed }

/-- The `/status` handler of `aws-internet-observer.py`: with no tracked
row it answers just `{"status": "no-ip"}` (no `last_check` field); only
otherwise does it query the freshest record. -/
def status (st : DBState) : JVal :=
  match st.ip_current.find? (fun r => r.id == 1) with
  | none => .jobj [("status", .jstr "no-ip")]
  | some r => .jobj [("current_ip", .jstr r.ip),
                     ("ip_updated_at", .jnum r.updated_at),
                     ("last_check", jOptLast ((latest st.checks 1).head?))]

/-- The `/history` handler of `aws-internet-observer.py` (same query as
`app.py`). -/
def history (st : DBState) : JVal :=
  .jarr ((latest st.checks 200).map histRowJ)

/-- The authorized body of `/api/update-ip` from `aws-internet-observer.py`
(same logic as `app.py`; only the success JSON key name differs). -/
def update_ip (jsonIp : Option String) (remote : String) (now : Nat)
    (st : DBState) : UpdateResp × DBState :=
  let ip := pyOrStr jsonIp remote
  if ip.isEmpty then (.badRequest, st)
  else (.ok ip, { st with ip_current := insertOrReplace st.ip_current ip now })

end Obs

/-- An operation of the service that touches the database: an update-IP
request (with its parsed body and remote address) or a scheduled probe
round. -/
inductive AOp where
  | updateIp : Option String → String → Nat → AOp
  | check : String → NetEnv → Nat → AOp

/-- Apply one operation to the database state. -/
def stepA (st : DBState) : AOp → DBState
  | .updateIp j r t => (App.update_ip j r t st).2
  | .check cfg env now => App.do_check cfg env st now

/-- Run a sequence of operations from the empty store created by
`init_db`. -/
def runOps (ops : List AOp) : DBState := ops.foldl stepA ⟨[], []⟩

/-- Concrete oracle where every network call raises. -/
def envErr : NetEnv :=
  ⟨fun _ _ => .error "dns failure", fun _ _ _ => .error "connection refused",
   fun _ _ => .error "read timeout"⟩

/-- Concrete oracle where every network call succeeds. -/
def envOk : NetEnv :=
  ⟨fun _ _ => .ok (0, "2 packets transmitted"), fun _ _ _ => .ok (),
   fun _ _ => .ok 200⟩

/-- Concrete state with the tracked address set. -/
def stTracked : DBState := ⟨[⟨1, "203.0.113.5", 4⟩], []⟩

/-- Concrete operation sequence: two updates of the tracked address. -/
def opsTwice : List AOp :=
  [AOp.updateIp (some "10.0.0.1") "9.9.9.9" 1,
   AOp.updateIp none "203.0.113.5" 2]

/-- Explicit form of the SQL trace of `do_check` when the tracked row is
found: four inserts, one per probe, then a single commit. -/
theorem do_check_ops_eq_of_found (cfg : String) (env : NetEnv) (st : DBState)
    (now : Nat) (row : IpRow)
    (h : st.ip_current.find? (fun r => r.id == 1) = some row) :
    App.do_check_ops cfg env st now =
      [DbOp.insertCheck ⟨row.ip, now, pyInt (App.ping_icmp env row.ip 2).1,
         "icmp", pytrunc (App.ping_icmp env row.ip 2).2 2000⟩,
       DbOp.insertCheck ⟨row.ip, now, pyInt (App.tcp_connect env row.ip 80 3).1,
         "tcp:80", pytrunc (App.tcp_connect env row.ip 80 3).2 2000⟩,
       DbOp.insertCheck ⟨row.ip, now, pyInt (App.tcp_connect env row.ip 443 3).1,
         "tcp:443", pytrunc (App.tcp_connect env row.ip 443 3).2 2000⟩,
       DbOp.insertCheck ⟨row.ip, now, pyInt (App.http_get env row.ip cfg 5).1,
         "http", pytrunc (App.http_get env row.ip cfg 5).2 2000⟩,
       DbOp.commit] := by
  simp [App.do_check_ops, h]
  exact ⟨by decide, by decide⟩

/-- C1: in every `do_check` invocation with a TrackedAddress set, exactly
four ProbeRecords are appended to the history, all four sharing the one
timestamp captured at round start, with methods exactly icmp, tcp:80,
tcp:443, http, and all four are committed as one atomic batch: a single
commit after all four inserts. -/
theorem do_check_round_four_records (cfg : String) (env : NetEnv)
    (st : DBState) (now : Nat) (row : IpRow)
    (h : st.ip_current.find? (fun r => r.id == 1) = some row) :
    ∃ r1 r2 r3 r4 : CheckRow,
      App.do_check_ops cfg env st now =
        [DbOp.insertCheck r1, DbOp.insertCheck r2, DbOp.insertCheck r3,
         DbOp.insertCheck r4, DbOp.commit] ∧
      r1.time = now ∧ r2.time = now ∧ r3.time = now ∧ r4.time = now ∧
      [r1.method, r2.method, r3.method, r4.method] =
        ["icmp", "tcp:80", "tcp:443", "http"] ∧
      (App.do_check cfg env st now).checks = st.checks ++ [r1, r2, r3, r4] := by
  refine ⟨_, _, _, _, do_check_ops_eq_of_found cfg env st now row h,
    rfl, rfl, rfl, rfl, rfl, ?_⟩
  simp [App.do_check, do_check_ops_eq_of_found cfg env st now row h, stepOp]

/-- Witness for C1 at a concrete state and oracle. -/
theorem do_check_round_four_records_witness :
    stTracked.ip_current.find? (fun r => r.id == 1) =
      some ⟨1, "203.0.113.5", 4⟩ ∧
    ∃ r1 r2 r3 r4 : CheckRow,
      App.do_check_ops "/health" envOk stTracked 9 =
        [DbOp.insertCheck r1, DbOp.insertCheck r2, DbOp.insertCheck r3,
         DbOp.insertCheck r4, DbOp.commit] ∧
      r1.time = 9 ∧ r2.time = 9 ∧ r3.time = 9 ∧ r4.time = 9 ∧
      [r1.method, r2.method, r3.method, r4.method] =
        ["icmp", "tcp:80", "tcp:443", "http"] ∧
      (App.do_check "/health" envOk stTracked 9).checks =
        stTracked.checks ++ [r1, r2, r3, r4] :=
  ⟨by decide, do_check_round_four_records "/health" envOk stTracked 9
    ⟨1, "203.0.113.5", 4⟩ (by decide)⟩

/-- C4: a `do_check` invocation with no TrackedAddress set is a silent
no-op: it issues no SQL operations, appends zero ProbeRecords, and leaves
the database unchanged. -/
theorem do_check_noop_when_unset (cfg : String) (env : NetEnv) (st : DBState)
    (now : Nat) (h : st.ip_current.find? (fun r => r.id == 1) = none) :
    App.do_check_ops cfg env st now = [] ∧ App.do_check cfg env st now = st := by
  constructor
  · simp [App.do_check_ops, h]
  · simp [App.do_check, App.do_check_ops, h]

/-- Witness for C4 at the empty store. -/
theorem do_check_noop_when_unset_witness :
    (DBState.mk [] []).ip_current.find? (fun r => r.id == 1) = none ∧
    App.do_check_ops "/health" envErr ⟨[], []⟩ 0 = [] ∧
    App.do_check "/health" envErr ⟨[], []⟩ 0 = ⟨[], []⟩ :=
  ⟨rfl, do_check_noop_when_unset "/health" envErr ⟨[], []⟩ 0 rfl⟩

/-- C2: each of the three probe functions always yields a boolean/string
pair, and whenever the underlying network, DNS, or protocol call raises an
exception `e`, the probe swallows it into `(false, str(e))` instead of
propagating it. -/
theorem probes_never_raise (env : NetEnv) (ip path : String)
    (port timeout : Nat) :
    (∃ b s, App.ping_icmp env ip timeout = (b, s)) ∧
    (∀ e, env.ping ip timeout = .error e →
      App.ping_icmp env ip timeout = (false, e)) ∧
    (∃ b s, App.tcp_connect env ip port timeout = (b, s)) ∧
    (∀ e, env.connect ip port timeout = .error e →
      App.tcp_connect env ip port timeout = (false, e)) ∧
    (∃ b s, App.http_get env ip path timeout = (b, s)) ∧
    (∀ e, env.httpGet ("http://" ++ ip ++ path) timeout = .error e →
      App.http_get env ip path timeout = (false, e)) := by
  refine ⟨⟨_, _, rfl⟩, fun e he => ?_, ⟨_, _, rfl⟩, fun e he => ?_,
    ⟨_, _, rfl⟩, fun e he => ?_⟩
  · simp [App.ping_icmp, he]
  · simp [App.tcp_connect, he]
  · simp [App.http_get, he]

/-- Witness for C2 at an oracle whose every call raises. -/
theorem probes_never_raise_witness :
    envErr.ping "203.0.113.5" 2 = .error "dns failure" ∧
    App.ping_icmp envErr "203.0.113.5" 2 = (false, "dns failure") ∧
    envErr.connect "203.0.113.5" 80 3 = .error "connection refused" ∧
    App.tcp_connect envErr "203.0.113.5" 80 3 = (false, "connection refused") ∧
    envErr.httpGet ("http://" ++ "203.0.113.5" ++ "/health") 5 =
      .error "read timeout" ∧
    App.http_get envErr "203.0.113.5" "/health" 5 = (false, "read timeout") :=
  ⟨rfl,
   (probes_never_raise envErr "203.0.113.5" "/health" 80 2).2.1 _ rfl,
   rfl,
   (probes_never_raise envErr "203.0.113.5" "/health" 80 3).2.2.2.1 _ rfl,
   rfl,
   (probes_never_raise envErr "203.0.113.5" "/health" 80 5).2.2.2.2.2 _ rfl⟩

/-- C3: whenever the GET surfaces a response with status code `code`, the
HTTP check reports reachable iff `code` is exactly 200, its detail is
`"status:<code>"`, and in particular a surfaced 301 yields
`(false, "status:301")`. -/
theorem http_get_reachable_iff_200 (env : NetEnv) (ip path : String)
    (timeout code : Nat)
    (h : env.httpGet ("http://" ++ ip ++ path) timeout = .ok code) :
    ((App.http_get env ip path timeout).1 = true ↔ code = 200) ∧
    (App.http_get env ip path timeout).2 = "status:" ++ toString code ∧
    (code = 301 → App.http_get env ip path timeout = (false, "status:301")) := by
  refine ⟨?_, ?_, ?_⟩
  · simp [App.http_get, h]
  · simp [App.http_get, h]
  · intro hc
    subst hc
    simp [App.http_get, h]
    decide

/-- Witness for C3 at an oracle whose GET surfaces a 301. -/
theorem http_get_reachable_iff_200_witness :
    (NetEnv.mk (fun _ _ => .ok (0, "")) (fun _ _ _ => .ok ())
        (fun _ _ => .ok 301)).httpGet
      ("http://" ++ "203.0.113.5" ++ "/health") 5 = .ok 301 ∧
    App.http_get
      (NetEnv.mk (fun _ _ => .ok (0, "")) (fun _ _ _ => .ok ())
        (fun _ _ => .ok 301))
      "203.0.113.5" "/health" 5 = (false, "status:301") :=
  ⟨rfl,
   (http_get_reachable_iff_200
     (NetEnv.mk (fun _ _ => .ok (0, "")) (fun _ _ _ => .ok ())
       (fun _ _ => .ok 301))
     "203.0.113.5" "/health" 5 301 rfl).2.2 rfl⟩

/-- C5: for every history state, `latest n` (the `ORDER BY time DESC
LIMIT n` query used with n = 200 by history and n = 1 by status) is
ordered by time descending, and the single record of `latest 1` is
exactly `mostRecentAny`. -/
theorem latest_sorted_and_latest_one_eq_mostRecentAny
    (checks : List CheckRow) (n : Nat) :
    List.Sorted timeGe (latest checks n) ∧
    (latest checks 1).head? = mostRecentAny checks ∧
    latest checks 1 = (mostRecentAny checks).toList := by
  refine ⟨?_, ?_, ?_⟩
  · exact (List.sorted_insertionSort timeGe checks).sublist
      (List.take_sublist n (sortDesc checks))
  · unfold latest mostRecentAny
    cases sortDesc checks <;> rfl
  · unfold latest mostRecentAny
    cases sortDesc checks <;> rfl

/-- Python's `s[:n]` yields at most `n` characters, for a string of any
length. -/
theorem pytrunc_length_le (s : String) (n : Nat) : (pytrunc s n).length ≤ n := by
  show (s.data.take n).length ≤ n
  simpa using List.length_take_le n s.data

/-- C6: the truncation operation is total on strings of every length and
bounds its output at `n` characters, and every ProbeRecord inserted by a
probe round carries a detail of at most 2000 characters. -/
theorem detail_truncation_bound (cfg : String) (env : NetEnv) (st : DBState)
    (now : Nat) :
    (∀ s, (pytrunc s 2000).length ≤ 2000) ∧
    (∀ r, DbOp.insertCheck r ∈ App.do_check_ops cfg env st now →
      r.detail.length ≤ 2000) := by
  refine ⟨fun s => pytrunc_length_le s 2000, fun r hr => ?_⟩
  cases hfind : st.ip_current.find? (fun x => x.id == 1) with
  | none =>
    simp [App.do_check_ops, hfind] at hr
  | some row =>
    rw [do_check_ops_eq_of_found cfg env st now row hfind] at hr
    simp only [List.mem_cons, List.not_mem_nil, or_false] at hr
    rcases hr with h | h | h | h | h
    · cases DbOp.insertCheck.inj h; exact pytrunc_length_le _ 2000
    · cases DbOp.insertCheck.inj h; exact pytrunc_length_le _ 2000
    · cases DbOp.insertCheck.inj h; exact pytrunc_length_le _ 2000
    · cases DbOp.insertCheck.inj h; exact pytrunc_length_le _ 2000
    · exact absurd h (by simp)

/-- Witness for C6: the bound holds on a 5000-character string, and on a
concrete record of a concrete round. -/
theorem detail_truncation_bound_witness :
    (pytrunc (String.mk (List.replicate 5000 'x')) 2000).length ≤ 2000 ∧
    DbOp.insertCheck ⟨"203.0.113.5", 9, 1, "icmp", "2 packets transmitted"⟩ ∈
      App.do_check_ops "/health" envOk stTracked 9 ∧
    (CheckRow.mk "203.0.113.5" 9 1 "icmp"
      "2 packets transmitted").detail.length ≤ 2000 :=
  ⟨(detail_truncation_bound "/health" envOk stTracked 9).1 _,
   by decide,
   (detail_truncation_bound "/health" envOk stTracked 9).2 _ (by decide)⟩

/-- A table whose rows all have id 1 loses every row to the
delete-on-conflict filter of `INSERT OR REPLACE`. -/
theorem filter_not_one_eq_nil (rows : List IpRow)
    (h : ∀ r ∈ rows, r.id = 1) :
    rows.filter (fun r => r.id != 1) = [] := by
  rw [List.filter_eq_nil_iff]
  intro a ha
  simp [h a ha]

/-- On a table whose rows all have id 1, a non-empty update leaves exactly
the one overwritten row. -/
theorem update_ip_overwrites (j : Option String) (rm : String) (t : Nat)
    (st : DBState) (h : ∀ r ∈ st.ip_current, r.id = 1)
    (hne : (pyOrStr j rm).isEmpty = false) :
    (App.update_ip j rm t st).2.ip_current = [⟨1, pyOrStr j rm, t⟩] := by
  simp [App.update_ip, hne, insertOrReplace,
    filter_not_one_eq_nil st.ip_current h]

/-- One step of the service preserves the singleton shape of `ip_current`. -/
theorem stepA_preserves_singleton (st : DBState) (op : AOp)
    (h1 : st.ip_current.length ≤ 1) (h2 : ∀ r ∈ st.ip_current, r.id = 1) :
    (stepA st op).ip_current.length ≤ 1 ∧
    ∀ r ∈ (stepA st op).ip_current, r.id = 1 := by
  cases op with
  | check cfg env now => exact ⟨h1, h2⟩
  | updateIp j rm t =>
    show (App.update_ip j rm t st).2.ip_current.length ≤ 1 ∧
      ∀ r ∈ (App.update_ip j rm t st).2.ip_current, r.id = 1
    cases hne : (pyOrStr j rm).isEmpty with
    | true =>
      have hst : (App.update_ip j rm t st).2 = st := by
        simp [App.update_ip, hne]
      rw [hst]
      exact ⟨h1, h2⟩
    | false =>
      rw [update_ip_overwrites j rm t st h2 hne]
      exact ⟨by simp, by simp⟩

/-- The singleton shape is preserved along any run. -/
theorem foldA_preserves_singleton (ops : List AOp) (st : DBState)
    (h1 : st.ip_current.length ≤ 1) (h2 : ∀ r ∈ st.ip_current, r.id = 1) :
    (ops.foldl stepA st).ip_current.length ≤ 1 ∧
    ∀ r ∈ (ops.foldl stepA st).ip_current, r.id = 1 := by
  induction ops generalizing st with
  | nil => exact ⟨h1, h2⟩
  | cons op rest ih =>
    rcases stepA_preserves_singleton st op h1 h2 with ⟨g1, g2⟩
    exact ih (stepA st op) g1 g2

/-- C7: along every sequence of operations from the empty store,
`ip_current` holds at most one row, that row has the fixed id 1, and a
further non-empty write overwrites it to exactly one new row rather than
appending a second one. -/
theorem tracked_address_singleton (ops : List AOp) :
    (runOps ops).ip_current.length ≤ 1 ∧
    (∀ r ∈ (runOps ops).ip_current, r.id = 1) ∧
    ∀ j rm t, (pyOrStr j rm).isEmpty = false →
      (App.update_ip j rm t (runOps ops)).2.ip_current =
        [⟨1, pyOrStr j rm, t⟩] := by
  rcases foldA_preserves_singleton ops ⟨[], []⟩ (by simp) (by simp) with ⟨h1, h2⟩
  exact ⟨h1, h2, fun j rm t hne => update_ip_overwrites j rm t _ h2 hne⟩

/-- Witness for C7 on a concrete two-update run followed by a third
write. -/
theorem tracked_address_singleton_witness :
    (runOps opsTwice).ip_current.length ≤ 1 ∧
    (⟨1, "203.0.113.5", 2⟩ : IpRow) ∈ (runOps opsTwice).ip_current ∧
    (⟨1, "203.0.113.5", 2⟩ : IpRow).id = 1 ∧
    (pyOrStr (some "10.9.8.7") "").isEmpty = false ∧
    (App.update_ip (some "10.9.8.7") "" 3 (runOps opsTwice)).2.ip_current =
      [⟨1, "10.9.8.7", 3⟩] :=
  ⟨(tracked_address_singleton opsTwice).1,
   by decide,
   (tracked_address_singleton opsTwice).2.1 _ (by decide),
   by decide,
   (tracked_address_singleton opsTwice).2.2 (some "10.9.8.7") "" 3 (by decide)⟩

/-- C9: a probe round reads the tracked address exactly once, at round
start: its whole SQL trace is a function of the row found by that single
read (two states agreeing on that read yield identical traces, so an
overwrite of the TrackedAddress once the round is in flight cannot change
the round's records), and every record of the round carries that row's
address and the round timestamp. -/
theorem round_reads_address_once (cfg : String) (env : NetEnv) (now : Nat)
    (st st' : DBState) (row : IpRow)
    (h : st.ip_current.find? (fun r => r.id == 1) = some row)
    (h' : st'.ip_current.find? (fun r => r.id == 1) = some row) :
    App.do_check_ops cfg env st now = App.do_check_ops cfg env st' now ∧
    ∀ r, DbOp.insertCheck r ∈ App.do_check_ops cfg env st now →
      r.ip = row.ip ∧ r.time = now := by
  constructor
  · rw [do_check_ops_eq_of_found cfg env st now row h,
      do_check_ops_eq_of_found cfg env st' now row h']
  · intro r hr
    rw [do_check_ops_eq_of_found cfg env st now row h] at hr
    simp only [List.mem_cons, List.not_mem_nil, or_false] at hr
    rcases hr with hh | hh | hh | hh | hh
    · cases DbOp.insertCheck.inj hh; exact ⟨rfl, rfl⟩
    · cases DbOp.insertCheck.inj hh; exact ⟨rfl, rfl⟩
    · cases DbOp.insertCheck.inj hh; exact ⟨rfl, rfl⟩
    · cases DbOp.insertCheck.inj hh; exact ⟨rfl, rfl⟩
    · exact absurd hh (by simp)

/-- Second concrete state for C9: same tracked row as `stTracked` but the
surrounding database differs (an extra row and some history). -/
def stTrackedMore : DBState :=
  ⟨[⟨1, "203.0.113.5", 4⟩, ⟨2, "198.51.100.7", 8⟩],
   [⟨"198.51.100.7", 3, 1, "icmp", "old"⟩]⟩

/-- Witness for C9 on two concrete states sharing the tracked row. -/
theorem round_reads_address_once_witness :
    stTracked.ip_current.find? (fun r => r.id == 1) =
      some ⟨1, "203.0.113.5", 4⟩ ∧
    stTrackedMore.ip_current.find? (fun r => r.id == 1) =
      some ⟨1, "203.0.113.5", 4⟩ ∧
    App.do_check_ops "/health" envOk stTracked 9 =
      App.do_check_ops "/health" envOk stTrackedMore 9 ∧
    DbOp.insertCheck ⟨"203.0.113.5", 9, 1, "icmp", "2 packets transmitted"⟩ ∈
      App.do_check_ops "/health" envOk stTracked 9 ∧
    (CheckRow.mk "203.0.113.5" 9 1 "icmp" "2 packets transmitted").ip =
      (IpRow.mk 1 "203.0.113.5" 4).ip ∧
    (CheckRow.mk "203.0.113.5" 9 1 "icmp" "2 packets transmitted").time = 9 :=
  ⟨by decide, by decide,
   (round_reads_address_once "/health" envOk 9 stTracked stTrackedMore
     ⟨1, "203.0.113.5", 4⟩ (by decide) (by decide)).1,
   by decide,
   (round_reads_address_once "/health" envOk 9 stTracked stTrackedMore
     ⟨1, "203.0.113.5", 4⟩ (by decide) (by decide)).2 _ (by decide)⟩

/-- C10: an authorized update request whose body carries no parseable JSON
or no ip field (`jsonIp = none`) silently adopts the requester's remote
address as the new tracked address, and answers the 400 "no ip provided"
error exactly when that remote address is empty too. -/
theorem update_ip_remote_fallback (remote : String) (st : DBState)
    (now : Nat) :
    (remote ≠ "" →
      App.update_ip none remote now st =
        (UpdateResp.ok remote,
         { st with ip_current := insertOrReplace st.ip_current remote now })) ∧
    ((App.update_ip none remote now st).1 = UpdateResp.badRequest ↔
      remote = "") := by
  constructor
  · intro hne
    have hf : remote.isEmpty = false := by
      rw [Bool.eq_false_iff]
      intro hc
      exact hne ((String.isEmpty_iff remote).mp hc)
    simp [App.update_ip, pyOrStr, hf]
  · by_cases hr : remote = ""
    · subst hr
      have ht : ("" : String).isEmpty = true := rfl
      simp [App.update_ip, pyOrStr, ht]
    · have hf : remote.isEmpty = false := by
        rw [Bool.eq_false_iff]
        intro hc
        exact hr ((String.isEmpty_iff remote).mp hc)
      simp [App.update_ip, pyOrStr, hf, hr]

/-- Witness for C10: a concrete bodyless request from a non-empty remote
address, and one from an empty remote address. -/
theorem update_ip_remote_fallback_witness :
    ("198.51.100.7" : String) ≠ "" ∧
    App.update_ip none "198.51.100.7" 3 ⟨[], []⟩ =
      (UpdateResp.ok "198.51.100.7", ⟨[⟨1, "198.51.100.7", 3⟩], []⟩) ∧
    ((App.update_ip none "" 3 ⟨[], []⟩).1 = UpdateResp.badRequest ↔
      ("" : String) = "") :=
  ⟨by decide,
   by
     rw [(update_ip_remote_fallback "198.51.100.7" ⟨[], []⟩ 3).1 (by decide)]
     rfl,
   (update_ip_remote_fallback "" ⟨[], []⟩ 3).2⟩

/-- C8 counterexample: on the identical empty database state the two
status responses already differ — `app.py` answers
`{"status": "no-ip", "last_check": null}` while `aws-internet-observer.py`
answers just `{"status": "no-ip"}`. -/
theorem status_differs_when_unset :
    App.status ⟨[], []⟩ ≠ Obs.status ⟨[], []⟩ := by
  intro h
  simp [App.status, Obs.status, latest, sortDesc, jOptLast] at h

/-- C8 (amended): on every identical database state and identical probe
outcomes, the probe checks, the probe round executor, and the history
query of the two services coincide, and the status deriver coincides
whenever a TrackedAddress is set; in the no-address state alone the two
status responses differ by the extra `last_check` field of `app.py`. -/
theorem core_operations_equivalent (cfg : String) (env : NetEnv)
    (st : DBState) (now : Nat) (ip path : String) (port timeout : Nat) :
    App.ping_icmp env ip timeout = Obs.ping_icmp env ip timeout ∧
    App.tcp_connect env ip port timeout = Obs.tcp_connect env ip port timeout ∧
    App.http_get env ip path timeout = Obs.http_get env ip path timeout ∧
    App.do_check_ops cfg env st now = Obs.do_check_ops cfg env st now ∧
    App.do_check cfg env st now = Obs.do_check cfg env st now ∧
    App.history st = Obs.history st ∧
    ∀ row, st.ip_current.find? (fun r => r.id == 1) = some row →
      App.status st = Obs.status st := by
  refine ⟨rfl, rfl, rfl, rfl, rfl, rfl, fun row h => ?_⟩
  simp [App.status, Obs.status, h]

/-- Witness for the amended C8 at a concrete state with the address set. -/
theorem core_operations_equivalent_witness :
    stTracked.ip_current.find? (fun r => r.id == 1) =
      some ⟨1, "203.0.113.5", 4⟩ ∧
    App.status stTracked = Obs.status stTracked :=
  ⟨by decide,
   (core_operations_equivalent "/health" envOk stTracked 9 "203.0.113.5"
     "/health" 80 5).2.2.2.2.2.2 ⟨1, "203.0.113.5", 4⟩ (by decide)⟩
